import Mathlib

/-!
Shallow embedding of the room presence & lifecycle coordination engine
(`src/services/room.js`, `src/hooks/useDisconnectMonitor.js`,
`src/hooks/useRoomCleaner.js`).

Modelling conventions:
* Firebase RTDB snapshots are `Option Room`; `none` is a `null` snapshot.
* The `members` map is a `List (String × Member)` in `Object.entries`
  order.  Firebase never stores an empty object — an empty map reads back
  as `null` — so the JS guard `!roomData.members` is modelled as
  `members = []`.
* `serverTimestamp()` / `Date.now()` are `Nat` parameters (`now`).
* Each `set(ref(db, path), v)` call is a `RoomWrite`; a function that
  performs writes returns the list of writes it issues, in issue order.
  `applyWrite` gives the store-side effect of a single write.
-/

namespace PocRtdb

/-- MEMBER_STATUS constants in `room.js`. -/
inductive MemberStatus
  | online
  | away
  | offline
deriving DecidableEq

/-- MEMBER_ROLE constants in `room.js`. -/
inductive MemberRole
  | host
  | player
  | admin
deriving DecidableEq

/-- ROOM_STATUS constants in `room.js` (`open` is a Lean keyword, rendered
`roomOpen`). -/
inductive RoomStatus
  | active
  | idle
  | empty
  | closed
  | roomOpen
deriving DecidableEq

/-- A member record under `rooms/{roomId}/members/{userId}` as written by
`createMemberData`. -/
structure Member where
  name : String
  role : MemberRole
  status : MemberStatus
  lastChanged : Nat
deriving DecidableEq

/-- The object returned by `calculatePlayerCounts`. -/
structure PlayerCounts where
  activePlayers : Nat
  awayPlayers : Nat
  offlinePlayers : Nat
  totalPlayers : Nat
deriving DecidableEq

/-- The `stats` object written by `createRoomStats`. -/
structure RoomStats where
  activePlayers : Nat
  awayPlayers : Nat
  offlinePlayers : Nat
  totalPlayers : Nat
  lastChecked : Nat
deriving DecidableEq

/-- A room record under `rooms/{roomId}` (the fields the verified
components read or write). -/
structure Room where
  status : RoomStatus
  roomStatus : RoomStatus
  inactiveSince : Option Nat
  lastActiveAt : Nat
  statusUpdatedAt : Nat
  totalMembers : Nat
  stats : RoomStats
  members : List (String × Member)
  closedAt : Option Nat
  closeReason : Option String
  deleteAt : Option Nat
deriving DecidableEq

/-- `membersList.filter(([, m]) => m.status === 'online').length`. -/
def onlineCount (l : List (String × Member)) : Nat :=
  (l.filter fun p => decide (p.2.status = MemberStatus.online)).length

/-- `membersList.filter(([, m]) => m.status === 'away').length`. -/
def awayCount (l : List (String × Member)) : Nat :=
  (l.filter fun p => decide (p.2.status = MemberStatus.away)).length

/-- `membersList.filter(([, m]) => m.status === 'offline').length`. -/
def offlineCount (l : List (String × Member)) : Nat :=
  (l.filter fun p => decide (p.2.status = MemberStatus.offline)).length

/-- `calculatePlayerCounts` in `room.js`. -/
def calculatePlayerCounts (members : List (String × Member)) : PlayerCounts :=
  { activePlayers := onlineCount members
    awayPlayers := awayCount members
    offlinePlayers := offlineCount members
    totalPlayers := members.length }

/-- `determineRoomStatus` in `room.js`. -/
def determineRoomStatus (c : PlayerCounts) : RoomStatus :=
  if c.activePlayers = 0 ∧ c.awayPlayers = 0 ∧ c.offlinePlayers > 0 then
    RoomStatus.empty
  else if c.activePlayers = 0 ∧ c.awayPlayers > 0 then
    RoomStatus.idle
  else
    RoomStatus.active

/-- A single `set(ref(db, path), value)` call on a path under
`rooms/{roomId}`, as issued by the verified components. -/
inductive RoomWrite
  | setStatus (s : RoomStatus)
  | setRoomStatus (s : RoomStatus)
  | setInactiveSince (t : Option Nat)
  | setLastActiveAt (t : Nat)
  | setStatusUpdatedAt (t : Nat)
  | setStats (s : RoomStats)
  | setClosedAt (t : Nat)
  | setCloseReason (r : String)
  | setDeleteAt (t : Nat)
  | setMemberRole (id : String) (r : MemberRole)
  | setMemberStatus (id : String) (s : MemberStatus)
  | setMemberLastChanged (id : String) (t : Nat)
deriving DecidableEq

/-- Store-side effect of one write on a room record.  A write to a leaf
under `members/{id}` updates that leaf of the existing member record
(Firebase would create a partial record for an absent id; no verified
claim exercises that case, and such a write leaves this model's room
unchanged). -/
def applyWrite (r : Room) : RoomWrite → Room
  | RoomWrite.setStatus s => { r with status := s }
  | RoomWrite.setRoomStatus s => { r with roomStatus := s }
  | RoomWrite.setInactiveSince t => { r with inactiveSince := t }
  | RoomWrite.setLastActiveAt t => { r with lastActiveAt := t }
  | RoomWrite.setStatusUpdatedAt t => { r with statusUpdatedAt := t }
  | RoomWrite.setStats s => { r with stats := s }
  | RoomWrite.setClosedAt t => { r with closedAt := some t }
  | RoomWrite.setCloseReason s => { r with closeReason := some s }
  | RoomWrite.setDeleteAt t => { r with deleteAt := some t }
  | RoomWrite.setMemberRole id ro =>
      { r with members := r.members.map fun p =>
          if p.1 = id then (p.1, { p.2 with role := ro }) else p }
  | RoomWrite.setMemberStatus id s =>
      { r with members := r.members.map fun p =>
          if p.1 = id then (p.1, { p.2 with status := s }) else p }
  | RoomWrite.setMemberLastChanged id t =>
      { r with members := r.members.map fun p =>
          if p.1 = id then (p.1, { p.2 with lastChanged := t }) else p }

/-- Sequential application of a list of writes, in issue order. -/
def applyWrites (r : Room) (ws : List RoomWrite) : Room :=
  ws.foldl applyWrite r

/-- Outcome of the settle-delay callback of `useDisconnectMonitor`: the
writes it issues and whether it schedules the close-delay timer. -/
structure MonitorStep where
  writes : List RoomWrite
  schedulesClose : Bool
deriving DecidableEq

/-- The snapshot callback `useDisconnectMonitor` runs after the 2s settle
delay (lines 42-151 of `useDisconnectMonitor.js`).  `snap` is the fresh
room snapshot; `now` stands for `Date.now()`/`serverTimestamp()`. -/
def disconnectSettleStep (now : Nat) : Option Room → MonitorStep
  | none => ⟨[], false⟩
  | some roomData =>
    if roomData.roomStatus = RoomStatus.closed ∨ roomData.status = RoomStatus.closed then
      ⟨[], false⟩
    else if roomData.members = [] then
      ⟨[], false⟩
    else
      let membersList := roomData.members
      let onlineCnt := onlineCount membersList
      let awayCnt := awayCount membersList
      let offlineCnt := offlineCount membersList
      if onlineCnt > 0 ∨ awayCnt > 0 then
        ⟨[], false⟩
      else if onlineCnt = 0 ∧ awayCnt = 0 ∧ offlineCnt > 0 then
        ⟨[RoomWrite.setStatus RoomStatus.empty,
          RoomWrite.setInactiveSince (some now),
          RoomWrite.setStats ⟨0, 0, offlineCnt, membersList.length, now⟩], true⟩
      else
        ⟨[], false⟩

/-- The double-check callback `useDisconnectMonitor` runs when the
close-delay timer fires (lines 116-146 of `useDisconnectMonitor.js`),
on the fresh snapshot taken at that moment. -/
def disconnectCloseStep (now : Nat) : Option Room → List RoomWrite
  | none => []
  | some finalRoomData =>
    if finalRoomData.members = [] then
      []
    else
      let finalMembersList := finalRoomData.members
      if onlineCount finalMembersList > 0 ∨ awayCount finalMembersList > 0 then
        []
      else
        [RoomWrite.setStatus RoomStatus.closed,
         RoomWrite.setRoomStatus RoomStatus.closed,
         RoomWrite.setClosedAt now,
         RoomWrite.setCloseReason "Auto-closed: All players disconnected"]

/-- One full reaction of the disconnect monitor to a beacon change:
the settle-delay check on `snap1`, and — only if that check scheduled
the close timer — the close-delay check on the later snapshot `snap2`. -/
def disconnectMonitorRun (now1 now2 : Nat) (snap1 snap2 : Option Room) : List RoomWrite :=
  let step := disconnectSettleStep now1 snap1
  step.writes ++ (if step.schedulesClose then disconnectCloseStep now2 snap2 else [])

/-- `findEligibleHost` in `room.js`: first online non-host member, else
first away non-host member, else none. -/
def findEligibleHost (membersList : List (String × Member)) (currentHostId : String) :
    Option (String × Member) :=
  let eligiblePlayers := membersList.filter fun p =>
    decide (p.1 ≠ currentHostId ∧ p.2.status = MemberStatus.online)
  if eligiblePlayers.length > 0 then
    eligiblePlayers.head?
  else
    let awayPlayers := membersList.filter fun p =>
      decide (p.1 ≠ currentHostId ∧ p.2.status = MemberStatus.away)
    if awayPlayers.length > 0 then awayPlayers.head? else none

/-- The three writes `transferHost` passes to `batchUpdate`, in the
insertion order of its `updates` object.  `batchUpdate` (room.js lines
35-41) issues them as independent `set` calls joined by `Promise.all`,
not as one atomic multi-path update. -/
def transferCommitWrites (currentHostId newHostId : String) (now : Nat) : List RoomWrite :=
  [RoomWrite.setMemberRole currentHostId MemberRole.player,
   RoomWrite.setMemberRole newHostId MemberRole.host,
   RoomWrite.setMemberLastChanged newHostId now]

/-- Return value and issued writes of `transferHost`. -/
structure TransferOutcome where
  result : Option String
  writes : List RoomWrite
deriving DecidableEq

/-- `transferHost` in `room.js`, as a function of its two room reads:
`snap1` is the first `getSnapshot`, `snap2` the re-read taken
immediately before the commit. -/
def transferHost (currentHostId : String) (now : Nat) (snap1 snap2 : Option Room) :
    TransferOutcome :=
  match snap1 with
  | none => ⟨none, []⟩
  | some roomData =>
    let membersList := roomData.members
    match findEligibleHost membersList currentHostId with
    | none => ⟨none, []⟩
    | some (newHostId, _newHostData) =>
      -- `if (!newHostId || !newHostData)`: the only falsy id is ''
      if newHostId = "" then ⟨none, []⟩
      else
        match snap2 with
        | none => ⟨none, []⟩
        | some verifyRoomData =>
          if verifyRoomData.members = [] then ⟨none, []⟩
          else
            match verifyRoomData.members.find? (fun p => decide (p.2.role = MemberRole.host)) with
            | some currentHost =>
              if currentHost.1 ≠ currentHostId then ⟨some currentHost.1, []⟩
              else ⟨some newHostId, transferCommitWrites currentHostId newHostId now⟩
            | none => ⟨some newHostId, transferCommitWrites currentHostId newHostId now⟩

/-- Number of members holding the host role (observation function for the
single-host invariant). -/
def hostCount (l : List (String × Member)) : Nat :=
  (l.filter fun p => decide (p.2.role = MemberRole.host)).length

/-- JS truthiness of an optional numeric field: `null`/`undefined`/`0`
are falsy (`null` and `undefined` are both `none` here). -/
def jsTruthyNum : Option Nat → Bool
  | none => false
  | some n => decide (n ≠ 0)

/-- `getRoomStatus` in `room.js`, restricted to the player counts it
computes from its own room read (it throws on a null snapshot). -/
def getRoomStatusCounts : Option Room → Option PlayerCounts
  | none => none
  | some roomData => some (calculatePlayerCounts roomData.members)

/-- `updateRoomStatus` in `room.js`, as a function of its two room reads
(`snap1` for `roomData`, `snap2` for the nested `getRoomStatus` read):
the writes it passes to `batchUpdate`, in insertion order.  An error
path (null snapshot) performs no write. -/
def updateRoomStatus (now : Nat) (snap1 snap2 : Option Room) : List RoomWrite :=
  match snap1 with
  | none => []
  | some roomData =>
    if roomData.status = RoomStatus.closed ∨ roomData.roomStatus = RoomStatus.closed then
      []
    else
      match getRoomStatusCounts snap2 with
      | none => []
      | some status =>
        let newStatus := determineRoomStatus status
        let currentStatus := roomData.status
        let currentStats := roomData.stats
        let statsChanged : Bool :=
          decide (currentStats.activePlayers ≠ status.activePlayers) ||
          decide (currentStats.awayPlayers ≠ status.awayPlayers) ||
          decide (currentStats.offlinePlayers ≠ status.offlinePlayers) ||
          decide (currentStats.totalPlayers ≠ status.totalPlayers)
        let statusChanged : Bool := decide (currentStatus ≠ newStatus)
        if !statusChanged && !statsChanged then
          []
        else
          (if statusChanged then
            [RoomWrite.setStatus newStatus, RoomWrite.setStatusUpdatedAt now] ++
            (if newStatus = RoomStatus.idle ∨ newStatus = RoomStatus.empty then
              -- `if (!roomData.inactiveSince)`: JS-falsy check
              (if !jsTruthyNum roomData.inactiveSince then
                [RoomWrite.setInactiveSince (some now)]
              else [])
            else if newStatus = RoomStatus.active then
              -- `if (roomData.inactiveSince !== null)`
              (if roomData.inactiveSince ≠ none then
                [RoomWrite.setInactiveSince none]
              else []) ++
              [RoomWrite.setLastActiveAt now]
            else [])
          else []) ++
          (if statsChanged then
            [RoomWrite.setStats
              ⟨status.activePlayers, status.awayPlayers,
               status.offlinePlayers, status.totalPlayers, now⟩]
          else [])

/-- Per-room decision of the realtime cleanup listener in
`useRoomCleaner.js` (lines 79-112), for the elected leader. -/
inductive RealtimeCleanupAction
  | skip
  | deleteNow
  | scheduleDelete (delay : Int)
deriving DecidableEq

/-- Realtime cleanup path of `useRoomCleaner` on one room entry. -/
def realtimeCleanupAction (now : Nat) (roomData : Room) : RealtimeCleanupAction :=
  if !jsTruthyNum roomData.deleteAt then
    RealtimeCleanupAction.skip
  else
    let deleteTime := roomData.deleteAt.getD 0
    let timeUntilDeletion : Int := (deleteTime : Int) - (now : Int)
    if timeUntilDeletion ≤ 0 then RealtimeCleanupAction.deleteNow
    else RealtimeCleanupAction.scheduleDelete timeUntilDeletion

/-- Periodic-sweep deletion decision of `useRoomCleaner` on one room
entry (lines 136-152 of `useRoomCleaner.js`). -/
def periodicCleanupDeletes (now : Nat) (roomData : Room) : Bool :=
  let isClosed :=
    decide (roomData.status = RoomStatus.closed) ||
    decide (roomData.roomStatus = RoomStatus.closed)
  let hasOldDeleteTime :=
    jsTruthyNum roomData.deleteAt && decide ((roomData.deleteAt.getD 0 : Int) < (now : Int))
  let closedLongAgo :=
    jsTruthyNum roomData.closedAt &&
      decide ((now : Int) - (roomData.closedAt.getD 0 : Int) > 60000)
  isClosed && (hasOldDeleteTime || closedLongAgo)

/-- `leaveRoom` in `room.js`: one `set` of `'offline'` to
`rooms/{roomId}/members/{userId}/status`. -/
def leaveRoom (userId : String) : List RoomWrite :=
  [RoomWrite.setMemberStatus userId MemberStatus.offline]

/-- Fixture stats object. -/
def statsZero : RoomStats := ⟨0, 0, 0, 0, 0⟩

/-- Fixture: open room with offline host `h0` and online player `a1`. -/
def raceRoom : Room :=
  { status := RoomStatus.active
    roomStatus := RoomStatus.roomOpen
    inactiveSince := none
    lastActiveAt := 0
    statusUpdatedAt := 0
    totalMembers := 2
    stats := statsZero
    members := [("h0", ⟨"H", MemberRole.host, MemberStatus.offline, 0⟩),
                ("a1", ⟨"A", MemberRole.player, MemberStatus.online, 0⟩)]
    closedAt := none
    closeReason := none
    deleteAt := none }

/-- Fixture: open room whose two members are both offline. -/
def allOfflineRoom : Room :=
  { raceRoom with
    members := [("h0", ⟨"H", MemberRole.host, MemberStatus.offline, 0⟩),
                ("a1", ⟨"A", MemberRole.player, MemberStatus.offline, 0⟩)] }

/-- Fixture: offline host with one online and one away candidate. -/
def mixedRoom : Room :=
  { raceRoom with
    totalMembers := 3
    members := [("h", ⟨"H", MemberRole.host, MemberStatus.offline, 0⟩),
                ("A", ⟨"A", MemberRole.player, MemberStatus.online, 0⟩),
                ("B", ⟨"B", MemberRole.player, MemberStatus.away, 0⟩)] }

/-- Fixture: re-read state in which the host role has already moved from
`h` to `B`. -/
def verifyChangedRoom : Room :=
  { raceRoom with
    totalMembers := 3
    members := [("h", ⟨"H", MemberRole.player, MemberStatus.offline, 0⟩),
                ("A", ⟨"A", MemberRole.player, MemberStatus.online, 0⟩),
                ("B", ⟨"B", MemberRole.host, MemberStatus.away, 1⟩)] }

/-- Fixture: closed room whose `closedAt` is more than a minute old while
its `deleteAt` is still in the future. -/
def staleClosedRoom : Room :=
  { status := RoomStatus.closed
    roomStatus := RoomStatus.closed
    inactiveSince := some 990000
    lastActiveAt := 0
    statusUpdatedAt := 0
    totalMembers := 1
    stats := statsZero
    members := [("u1", ⟨"U", MemberRole.host, MemberStatus.offline, 0⟩)]
    closedAt := some 1000000
    closeReason := some "closed by host"
    deleteAt := some 1220000 }

/-- Fixture: room whose stored status and stats already match its member
distribution. -/
def steadyRoom : Room :=
  { status := RoomStatus.active
    roomStatus := RoomStatus.roomOpen
    inactiveSince := none
    lastActiveAt := 3
    statusUpdatedAt := 3
    totalMembers := 1
    stats := ⟨1, 0, 0, 1, 7⟩
    members := [("u1", ⟨"U", MemberRole.host, MemberStatus.online, 0⟩)]
    closedAt := none
    closeReason := none
    deleteAt := none }

/-- The three presence states partition every members list. -/
theorem counts_partition (l : List (String × Member)) :
    onlineCount l + awayCount l + offlineCount l = l.length := by
  induction l with
  | nil => rfl
  | cons p t ih =>
    simp only [onlineCount, awayCount, offlineCount, List.filter_cons] at *
    cases h : p.2.status <;> simp [h] <;> omega

/-- C4: for every triple of presence counts the derived activity status is
`empty` iff `online = 0 ∧ away = 0 ∧ offline > 0`, `idle` iff
`online = 0 ∧ away > 0`, and `active` otherwise. -/
theorem determineRoomStatus_characterization (c : PlayerCounts) :
    (determineRoomStatus c = RoomStatus.empty ↔
      (c.activePlayers = 0 ∧ c.awayPlayers = 0 ∧ c.offlinePlayers > 0)) ∧
    (determineRoomStatus c = RoomStatus.idle ↔
      (c.activePlayers = 0 ∧ c.awayPlayers > 0)) ∧
    (determineRoomStatus c = RoomStatus.active ↔
      (¬(c.activePlayers = 0 ∧ c.awayPlayers = 0 ∧ c.offlinePlayers > 0) ∧
        ¬(c.activePlayers = 0 ∧ c.awayPlayers > 0))) := by
  obtain ⟨a, w, o, t⟩ := c
  unfold determineRoomStatus
  rcases a with _ | a <;> rcases w with _ | w <;> rcases o with _ | o <;> simp

/-- C4 witness: the characterization evaluated at the count triples
(0,0,2), (0,3,1) and (1,0,0). -/
theorem determineRoomStatus_characterization_witness :
    (determineRoomStatus ⟨0, 0, 2, 2⟩ = RoomStatus.empty ↔
      ((0 : Nat) = 0 ∧ (0 : Nat) = 0 ∧ (2 : Nat) > 0)) ∧
    (determineRoomStatus ⟨0, 3, 1, 4⟩ = RoomStatus.idle ↔
      ((0 : Nat) = 0 ∧ (3 : Nat) > 0)) ∧
    (determineRoomStatus ⟨1, 0, 0, 1⟩ = RoomStatus.active ↔
      (¬((1 : Nat) = 0 ∧ (0 : Nat) = 0 ∧ (0 : Nat) > 0) ∧
        ¬((1 : Nat) = 0 ∧ (0 : Nat) > 0))) :=
  ⟨(determineRoomStatus_characterization ⟨0, 0, 2, 2⟩).1,
   (determineRoomStatus_characterization ⟨0, 3, 1, 4⟩).2.1,
   (determineRoomStatus_characterization ⟨1, 0, 0, 1⟩).2.2⟩

/-- C9: a room with an empty members map has all three presence counts
zero, and the aggregator classifies it `active`, not `empty`. -/
theorem emptyRoom_counts_active :
    calculatePlayerCounts [] = ⟨0, 0, 0, 0⟩ ∧
    determineRoomStatus (calculatePlayerCounts []) = RoomStatus.active := by
  constructor
  · rfl
  · decide

/-- A nonempty members list has a positive count for at least the status
forced by two vanished counts. -/
theorem offline_pos_of_no_active (l : List (String × Member)) (hne : l ≠ [])
    (hon : onlineCount l = 0) (haw : awayCount l = 0) : 0 < offlineCount l := by
  have hpart := counts_partition l
  have hlen : 0 < l.length := List.length_pos.mpr hne
  omega

/-- Inversion of the settle-delay check: the close timer is scheduled
only from a live snapshot whose members are all offline, together with
the exact writes issued there. -/
theorem disconnectSettleStep_scheduled (now : Nat) (snap : Option Room) (ws : List RoomWrite)
    (h : disconnectSettleStep now snap = ⟨ws, true⟩) :
    ∃ r, snap = some r ∧ onlineCount r.members = 0 ∧ awayCount r.members = 0 ∧
      0 < offlineCount r.members ∧
      ws = [RoomWrite.setStatus RoomStatus.empty,
            RoomWrite.setInactiveSince (some now),
            RoomWrite.setStats ⟨0, 0, offlineCount r.members, r.members.length, now⟩] := by
  match snap with
  | none => exact absurd h (by simp [disconnectSettleStep])
  | some r =>
    refine ⟨r, rfl, ?_⟩
    simp only [disconnectSettleStep] at h
    split at h
    · simp at h
    · split at h
      · simp at h
      · split at h
        · simp at h
        · split at h
          · rename_i hcond
            simp only [MonitorStep.mk.injEq] at h
            exact ⟨hcond.1, hcond.2.1, hcond.2.2, h.1.symm⟩
          · simp at h

/-- Inversion of the close-delay double check: closing writes are issued
only from a live snapshot whose members are all offline, and they are
exactly the four closure writes. -/
theorem disconnectCloseStep_closes (now : Nat) (snap : Option Room)
    (h : disconnectCloseStep now snap ≠ []) :
    ∃ r, snap = some r ∧ onlineCount r.members = 0 ∧ awayCount r.members = 0 ∧
      0 < offlineCount r.members ∧
      disconnectCloseStep now snap =
        [RoomWrite.setStatus RoomStatus.closed,
         RoomWrite.setRoomStatus RoomStatus.closed,
         RoomWrite.setClosedAt now,
         RoomWrite.setCloseReason "Auto-closed: All players disconnected"] := by
  match snap with
  | none => exact absurd rfl h
  | some r =>
    refine ⟨r, rfl, ?_⟩
    simp only [disconnectCloseStep] at h ⊢
    split at h
    · exact absurd rfl h
    · split at h
      · exact absurd rfl h
      · rename_i hne hno
        push_neg at hno
        have hon : onlineCount r.members = 0 := Nat.le_antisymm hno.1 (Nat.zero_le _)
        have haw : awayCount r.members = 0 := Nat.le_antisymm hno.2 (Nat.zero_le _)
        refine ⟨hon, haw, offline_pos_of_no_active r.members hne hon haw, ?_⟩
        rw [if_neg hne, if_neg]
        intro hc
        rcases hc with hc | hc
        · omega
        · omega

/-- The settle-delay check never writes the lifecycle-closing field. -/
theorem disconnectSettleStep_no_close_write (now : Nat) (snap : Option Room) :
    RoomWrite.setRoomStatus RoomStatus.closed ∉ (disconnectSettleStep now snap).writes := by
  match snap with
  | none => simp [disconnectSettleStep]
  | some r =>
    simp only [disconnectSettleStep]
    split
    · simp
    · split
      · simp
      · split
        · simp
        · split <;> simp

/-- C1: on every snapshot the disconnect monitor examines, any online or
away member makes it abort before performing any write (room stays
open), and the closing write is reached only when the settle snapshot
and the close-check snapshot both satisfy
`online = 0 ∧ away = 0 ∧ offline > 0`. -/
theorem disconnectMonitor_never_closes_active (now1 now2 : Nat) (snap1 snap2 : Option Room) :
    (∀ r, snap1 = some r → (0 < onlineCount r.members ∨ 0 < awayCount r.members) →
      disconnectSettleStep now1 snap1 = ⟨[], false⟩) ∧
    (∀ r, snap2 = some r → (0 < onlineCount r.members ∨ 0 < awayCount r.members) →
      disconnectCloseStep now2 snap2 = []) ∧
    (RoomWrite.setRoomStatus RoomStatus.closed ∈ disconnectMonitorRun now1 now2 snap1 snap2 →
      ∃ r1 r2, snap1 = some r1 ∧ snap2 = some r2 ∧
        onlineCount r1.members = 0 ∧ awayCount r1.members = 0 ∧
        0 < offlineCount r1.members ∧
        onlineCount r2.members = 0 ∧ awayCount r2.members = 0 ∧
        0 < offlineCount r2.members) := by
  refine ⟨?_, ?_, ?_⟩
  · rintro r rfl hact
    simp only [disconnectSettleStep]
    split
    · rfl
    · split <;> rfl
  · rintro r rfl hact
    simp only [disconnectCloseStep]
    split <;> rfl
  · intro hmem
    simp only [disconnectMonitorRun] at hmem
    rw [List.mem_append] at hmem
    rcases hmem with hmem | hmem
    · exact absurd hmem (disconnectSettleStep_no_close_write now1 snap1)
    · by_cases hsc : (disconnectSettleStep now1 snap1).schedulesClose = true
      · rw [if_pos hsc] at hmem
        have hclose : disconnectCloseStep now2 snap2 ≠ [] := by
          intro hnil
          rw [hnil] at hmem
          exact absurd hmem (List.not_mem_nil _)
        obtain ⟨r2, hs2, hon2, haw2, hoff2, _⟩ :=
          disconnectCloseStep_closes now2 snap2 hclose
        have heq : disconnectSettleStep now1 snap1 =
            ⟨(disconnectSettleStep now1 snap1).writes, true⟩ := by
          rw [← hsc]
        obtain ⟨r1, hs1, hon1, haw1, hoff1, _⟩ :=
          disconnectSettleStep_scheduled now1 snap1
            (disconnectSettleStep now1 snap1).writes heq
        exact ⟨r1, r2, hs1, hs2, hon1, haw1, hoff1, hon2, haw2, hoff2⟩
      · rw [if_neg hsc] at hmem
        exact absurd hmem (List.not_mem_nil _)

/-- C1 witness: with one online member the settle check aborts with no
write, and a run whose close-check snapshot is all-offline issues the
closing write only because both snapshots satisfy the precondition. -/
theorem disconnectMonitor_never_closes_active_witness :
    disconnectSettleStep 1 (some raceRoom) = ⟨[], false⟩ ∧
    disconnectCloseStep 2 (some raceRoom) = [] := by
  have h := disconnectMonitor_never_closes_active 1 2 (some raceRoom) (some raceRoom)
  exact ⟨h.1 raceRoom rfl (by decide), h.2.1 raceRoom rfl (by decide)⟩

/-- C2: when the close-delay timer fires, the monitor re-validates the
closure precondition on the fresh snapshot: if it shows any online or
away member no closing write is performed, the writes are issued only
if `online = 0 ∧ away = 0 ∧ offline > 0` still holds, and in that case
they are exactly activity status `closed`, lifecycle status `closed`,
`closedAt` and `closeReason`. -/
theorem disconnectCloseStep_revalidates (now : Nat) (snap : Option Room) :
    (∀ r, snap = some r → (0 < onlineCount r.members ∨ 0 < awayCount r.members) →
      disconnectCloseStep now snap = []) ∧
    (disconnectCloseStep now snap ≠ [] →
      ∃ r, snap = some r ∧ onlineCount r.members = 0 ∧ awayCount r.members = 0 ∧
        0 < offlineCount r.members) ∧
    (∀ r, snap = some r → r.members ≠ [] → onlineCount r.members = 0 →
      awayCount r.members = 0 →
      disconnectCloseStep now snap =
        [RoomWrite.setStatus RoomStatus.closed,
         RoomWrite.setRoomStatus RoomStatus.closed,
         RoomWrite.setClosedAt now,
         RoomWrite.setCloseReason "Auto-closed: All players disconnected"]) := by
  refine ⟨?_, ?_, ?_⟩
  · rintro r rfl hact
    simp only [disconnectCloseStep]
    split <;> rfl
  · intro h
    obtain ⟨r, hs, hon, haw, hoff, _⟩ := disconnectCloseStep_closes now snap h
    exact ⟨r, hs, hon, haw, hoff⟩
  · rintro r rfl hne hon haw
    have hno : ¬(onlineCount r.members > 0 ∨ awayCount r.members > 0) := by omega
    simp only [disconnectCloseStep]
    rw [if_neg hne, if_neg hno]

/-- C2 witness: an all-offline fresh snapshot yields exactly the four
closure writes, and an online member on the fresh snapshot suppresses
them. -/
theorem disconnectCloseStep_revalidates_witness :
    disconnectCloseStep 9 (some allOfflineRoom) =
      [RoomWrite.setStatus RoomStatus.closed,
       RoomWrite.setRoomStatus RoomStatus.closed,
       RoomWrite.setClosedAt 9,
       RoomWrite.setCloseReason "Auto-closed: All players disconnected"] ∧
    disconnectCloseStep 9 (some raceRoom) = [] := by
  have h1 := disconnectCloseStep_revalidates 9 (some allOfflineRoom)
  have h2 := disconnectCloseStep_revalidates 9 (some raceRoom)
  exact ⟨h1.2.2 allOfflineRoom rfl (by decide) (by decide) (by decide),
         h2.1 raceRoom rfl (by decide)⟩

/-- C5: failover successor selection prefers online members — it returns
an online non-host whenever one exists, returns an away member only
when no online non-host exists, and on `{host = offline, A = online,
B = away}` it selects A, not B. -/
theorem findEligibleHost_priority :
    (∀ (l : List (String × Member)) (hid : String),
      (∃ p ∈ l, p.1 ≠ hid ∧ p.2.status = MemberStatus.online) →
      ∃ q, findEligibleHost l hid = some q ∧ q.1 ≠ hid ∧
        q.2.status = MemberStatus.online) ∧
    (∀ (l : List (String × Member)) (hid : String) (q : String × Member),
      findEligibleHost l hid = some q → q.2.status = MemberStatus.away →
      ∀ p ∈ l, p.1 ≠ hid → p.2.status ≠ MemberStatus.online) ∧
    (findEligibleHost mixedRoom.members "h" =
      some ("A", ⟨"A", MemberRole.player, MemberStatus.online, 0⟩)) := by
  refine ⟨?_, ?_, by decide⟩
  · rintro l hid ⟨p, hp, hne, hst⟩
    have hpf : p ∈ l.filter fun x =>
        decide (x.1 ≠ hid ∧ x.2.status = MemberStatus.online) :=
      List.mem_filter.mpr ⟨hp, by simp [hne, hst]⟩
    have hlen : 0 < (l.filter fun x =>
        decide (x.1 ≠ hid ∧ x.2.status = MemberStatus.online)).length :=
      List.length_pos.mpr (List.ne_nil_of_mem hpf)
    unfold findEligibleHost
    rw [if_pos hlen]
    rcases hq : (l.filter fun x =>
        decide (x.1 ≠ hid ∧ x.2.status = MemberStatus.online)).head? with _ | q
    · rw [List.head?_eq_none_iff] at hq
      rw [hq] at hlen
      simp at hlen
    · have hqmem := List.mem_of_mem_head? hq
      have hqprop := (List.mem_filter.mp hqmem).2
      simp only [decide_eq_true_eq] at hqprop
      exact ⟨q, hq, hqprop.1, hqprop.2⟩
  · intro l hid q hfind haway p hp hpne hponl
    have hpf : p ∈ l.filter fun x =>
        decide (x.1 ≠ hid ∧ x.2.status = MemberStatus.online) :=
      List.mem_filter.mpr ⟨hp, by simp [hpne, hponl]⟩
    have hlen : 0 < (l.filter fun x =>
        decide (x.1 ≠ hid ∧ x.2.status = MemberStatus.online)).length :=
      List.length_pos.mpr (List.ne_nil_of_mem hpf)
    unfold findEligibleHost at hfind
    rw [if_pos hlen] at hfind
    have hqmem := List.mem_of_mem_head? hfind
    have hqprop := (List.mem_filter.mp hqmem).2
    simp only [decide_eq_true_eq] at hqprop
    rw [hqprop.2] at haway
    cases haway

/-- C5 witness: the general clauses applied to the concrete
`{host = offline, A = online, B = away}` room. -/
theorem findEligibleHost_priority_witness :
    ∃ q, findEligibleHost mixedRoom.members "h" = some q ∧ q.1 ≠ "h" ∧
      q.2.status = MemberStatus.online := by
  refine findEligibleHost_priority.1 mixedRoom.members "h"
    ⟨("A", ⟨"A", MemberRole.player, MemberStatus.online, 0⟩), by decide, by decide, rfl⟩

/-- C6: if the re-read done immediately before the commit shows that the
host role is held by someone other than the host that triggered the
transfer, `transferHost` performs no write and returns the
already-installed host's id. -/
theorem transferHost_aborts_on_changed_host
    (currentHostId : String) (now : Nat) (r1 vr : Room) (p : String × Member)
    (helig : findEligibleHost r1.members currentHostId = some p)
    (hpne : p.1 ≠ "")
    (hh : String) (hm : Member)
    (hmem : (hh, hm) ∈ vr.members) (hrole : hm.role = MemberRole.host)
    (hdiff : hh ≠ currentHostId)
    (huniq : ∀ q ∈ vr.members, q.2.role = MemberRole.host → q.1 = hh) :
    transferHost currentHostId now (some r1) (some vr) = ⟨some hh, []⟩ := by
  have hne : vr.members ≠ [] := List.ne_nil_of_mem hmem
  rcases p with ⟨newHostId, newHostData⟩
  have hpne2 : newHostId ≠ "" := hpne
  rcases hfind : vr.members.find? (fun q => decide (q.2.role = MemberRole.host)) with _ | q
  · exfalso
    rw [List.find?_eq_none] at hfind
    exact hfind (hh, hm) hmem (by simp [hrole])
  · have hqrole : q.2.role = MemberRole.host := by
      simpa using List.find?_some hfind
    have hq1 : q.1 = hh := huniq q (List.mem_of_find?_eq_some hfind) hqrole
    have hqne : q.1 ≠ currentHostId := by
      rw [hq1]
      exact hdiff
    simp only [transferHost, helig, hfind]
    rw [if_neg hpne2, if_neg hne, if_pos hqne, hq1]

/-- C6 witness: a concrete re-read in which the host has already moved
from `h` to `B` makes the transfer abort with no writes and report `B`. -/
theorem transferHost_aborts_on_changed_host_witness :
    transferHost "h" 4 (some mixedRoom) (some verifyChangedRoom) = ⟨some "B", []⟩ := by
  refine transferHost_aborts_on_changed_host "h" 4 mixedRoom verifyChangedRoom
    ("A", ⟨"A", MemberRole.player, MemberStatus.online, 0⟩) (by decide) (by decide)
    "B" ⟨"B", MemberRole.host, MemberStatus.away, 1⟩ (by decide) rfl (by decide)
    (by decide)

/-- C3: the host-transfer commit is not an atomic multi-key batch:
`batchUpdate` issues the demotion and the promotion as separate `set`
writes, and after the first of them lands the store holds an observable
state with zero hosts.  Evaluated at the concrete two-member room
`{h0 = offline host, a1 = online player}`. -/
theorem transferCommit_zero_host_window :
    transferHost "h0" 5 (some raceRoom) (some raceRoom) =
      ⟨some "a1", transferCommitWrites "h0" "a1" 5⟩ ∧
    transferCommitWrites "h0" "a1" 5 =
      [RoomWrite.setMemberRole "h0" MemberRole.player,
       RoomWrite.setMemberRole "a1" MemberRole.host,
       RoomWrite.setMemberLastChanged "a1" 5] ∧
    hostCount raceRoom.members = 1 ∧
    hostCount (applyWrite raceRoom
      (RoomWrite.setMemberRole "h0" MemberRole.player)).members = 0 ∧
    hostCount (applyWrites raceRoom (transferCommitWrites "h0" "a1" 5)).members = 1 := by
  refine ⟨by decide, rfl, by decide, by decide, by decide⟩

/-- C8: evaluation of the sweeper at a closed room whose `closedAt` is
over a minute old while its `deleteAt` (1220000) is still in the
future at `now = 1120000`.  The periodic sweep deletes it, although the
rule "delete iff `deleteAt` has passed, or closed with `closedAt` beyond
the one-minute grace and no `deleteAt` set" does not cover it — the
code's own comment says "closed for >1 minute without deleteAt", but
the `closedLongAgo` test omits the no-`deleteAt` check. -/
theorem periodicCleanup_deletes_future_deleteAt :
    periodicCleanupDeletes 1120000 staleClosedRoom = true ∧
    staleClosedRoom.deleteAt = some 1220000 ∧
    (1120000 : Nat) < 1220000 ∧
    staleClosedRoom.closedAt = some 1000000 ∧
    realtimeCleanupAction 1120000 staleClosedRoom =
      RealtimeCleanupAction.scheduleDelete 100000 ∧
    ¬(staleClosedRoom.deleteAt.getD 0 ≤ 1120000 ∨
      ((staleClosedRoom.status = RoomStatus.closed ∨
        staleClosedRoom.roomStatus = RoomStatus.closed) ∧
       staleClosedRoom.deleteAt = none)) := by decide

/-- C10: `leaveRoom` issues exactly one write — the member's `status`
leaf set to `offline`.  Applying it preserves every room-level field,
keeps the member-id list intact, leaves every other member's record
unchanged, and keeps the leaving member's record in the map with only
its status set to `offline`. -/
theorem leaveRoom_writes_only_member_status (r : Room) (userId : String) :
    leaveRoom userId = [RoomWrite.setMemberStatus userId MemberStatus.offline] ∧
    (applyWrites r (leaveRoom userId)).status = r.status ∧
    (applyWrites r (leaveRoom userId)).roomStatus = r.roomStatus ∧
    (applyWrites r (leaveRoom userId)).inactiveSince = r.inactiveSince ∧
    (applyWrites r (leaveRoom userId)).lastActiveAt = r.lastActiveAt ∧
    (applyWrites r (leaveRoom userId)).statusUpdatedAt = r.statusUpdatedAt ∧
    (applyWrites r (leaveRoom userId)).totalMembers = r.totalMembers ∧
    (applyWrites r (leaveRoom userId)).stats = r.stats ∧
    (applyWrites r (leaveRoom userId)).closedAt = r.closedAt ∧
    (applyWrites r (leaveRoom userId)).closeReason = r.closeReason ∧
    (applyWrites r (leaveRoom userId)).deleteAt = r.deleteAt ∧
    (applyWrites r (leaveRoom userId)).members.map Prod.fst =
      r.members.map Prod.fst ∧
    (∀ p ∈ r.members, p.1 ≠ userId →
      p ∈ (applyWrites r (leaveRoom userId)).members) ∧
    (∀ p ∈ r.members, p.1 = userId →
      (p.1, { p.2 with status := MemberStatus.offline }) ∈
        (applyWrites r (leaveRoom userId)).members) := by
  refine ⟨rfl, rfl, rfl, rfl, rfl, rfl, rfl, rfl, rfl, rfl, rfl, ?_, ?_, ?_⟩
  · show (r.members.map fun p =>
        if p.1 = userId then (p.1, { p.2 with status := MemberStatus.offline })
        else p).map Prod.fst = r.members.map Prod.fst
    induction r.members with
    | nil => rfl
    | cons a t ih =>
      simp only [List.map_cons, ih, List.cons.injEq, and_true]
      by_cases h : a.1 = userId <;> simp [h]
  · intro p hp hne
    show p ∈ r.members.map fun p =>
      if p.1 = userId then (p.1, { p.2 with status := MemberStatus.offline }) else p
    exact List.mem_map.mpr ⟨p, hp, if_neg hne⟩
  · intro p hp heq
    show (p.1, { p.2 with status := MemberStatus.offline }) ∈ r.members.map fun p =>
      if p.1 = userId then (p.1, { p.2 with status := MemberStatus.offline }) else p
    exact List.mem_map.mpr ⟨p, hp, if_pos heq⟩

/-- C10 witness: in the two-member fixture, `a1` leaving keeps both
records, flips only `a1`'s status to offline, and preserves the room
fields. -/
theorem leaveRoom_writes_only_member_status_witness :
    ("a1", ({ name := "A", role := MemberRole.player, status := MemberStatus.offline,
              lastChanged := 0 } : Member)) ∈
        (applyWrites raceRoom (leaveRoom "a1")).members ∧
    ("h0", ({ name := "H", role := MemberRole.host, status := MemberStatus.offline,
              lastChanged := 0 } : Member)) ∈
        (applyWrites raceRoom (leaveRoom "a1")).members ∧
    (applyWrites raceRoom (leaveRoom "a1")).totalMembers = raceRoom.totalMembers := by
  obtain ⟨c1, c2, c3, c4, c5, c6, c7, c8, c9, c10, c11, c12, c13, c14⟩ :=
    leaveRoom_writes_only_member_status raceRoom "a1"
  refine ⟨?_, ?_, c7⟩
  · exact c14 ("a1", ⟨"A", MemberRole.player, MemberStatus.online, 0⟩) (by decide) rfl
  · exact c13 ("h0", ⟨"H", MemberRole.host, MemberStatus.offline, 0⟩) (by decide) (by decide)

/-- The aggregator status function only returns the three open-room
activity values. -/
theorem determineRoomStatus_cases (c : PlayerCounts) :
    determineRoomStatus c = RoomStatus.empty ∨
    determineRoomStatus c = RoomStatus.idle ∨
    determineRoomStatus c = RoomStatus.active := by
  unfold determineRoomStatus
  split
  · exact Or.inl rfl
  · split
    · exact Or.inr (Or.inl rfl)
    · exact Or.inr (Or.inr rfl)

/-- If the stored status and all four stored count fields already match
the computed values, the aggregator writes nothing. -/
theorem updateRoomStatus_skip (now : Nat) (r : Room)
    (h0 : r.status = determineRoomStatus (calculatePlayerCounts r.members))
    (h1 : r.stats.activePlayers = onlineCount r.members)
    (h2 : r.stats.awayPlayers = awayCount r.members)
    (h3 : r.stats.offlinePlayers = offlineCount r.members)
    (h4 : r.stats.totalPlayers = r.members.length) :
    updateRoomStatus now (some r) (some r) = [] := by
  simp only [updateRoomStatus, getRoomStatusCounts]
  by_cases hcl : r.status = RoomStatus.closed ∨ r.roomStatus = RoomStatus.closed
  · rw [if_pos hcl]
  · rw [if_neg hcl]
    simp [calculatePlayerCounts, h0, h1, h2, h3, h4]

/-- Applying the aggregator's own writes to the room it read yields a
room with the same members and lifecycle status, whose stored activity
status and count fields now match the computed values. -/
theorem updateRoomStatus_post (now : Nat) (r : Room)
    (hcl : ¬(r.status = RoomStatus.closed ∨ r.roomStatus = RoomStatus.closed)) :
    (applyWrites r (updateRoomStatus now (some r) (some r))).members = r.members ∧
    (applyWrites r (updateRoomStatus now (some r) (some r))).roomStatus = r.roomStatus ∧
    (applyWrites r (updateRoomStatus now (some r) (some r))).status =
      determineRoomStatus (calculatePlayerCounts r.members) ∧
    (applyWrites r (updateRoomStatus now (some r) (some r))).stats.activePlayers =
      onlineCount r.members ∧
    (applyWrites r (updateRoomStatus now (some r) (some r))).stats.awayPlayers =
      awayCount r.members ∧
    (applyWrites r (updateRoomStatus now (some r) (some r))).stats.offlinePlayers =
      offlineCount r.members ∧
    (applyWrites r (updateRoomStatus now (some r) (some r))).stats.totalPlayers =
      r.members.length := by
  simp only [updateRoomStatus, getRoomStatusCounts]
  rw [if_neg hcl]
  split
  · rename_i hskip
    simp only [Bool.and_eq_true, Bool.not_eq_true', decide_eq_false_iff_not, not_not,
      Bool.or_eq_false_iff] at hskip
    simp_all [applyWrites, applyWrite, calculatePlayerCounts]
  · split <;> (try split) <;> (try split) <;> (try split) <;> (try split) <;>
      simp_all [applyWrites, applyWrite, calculatePlayerCounts]

/-- C7: the aggregator skips the write entirely when neither the
computed activity status nor any of the four player-count fields
differs from what is stored, so running it a second time on the room
its own writes produced — with the member distribution unchanged —
performs zero additional writes. -/
theorem updateRoomStatus_noop_on_unchanged (now now2 : Nat) (r : Room) :
    (r.status = determineRoomStatus (calculatePlayerCounts r.members) →
      r.stats.activePlayers = onlineCount r.members →
      r.stats.awayPlayers = awayCount r.members →
      r.stats.offlinePlayers = offlineCount r.members →
      r.stats.totalPlayers = r.members.length →
      updateRoomStatus now (some r) (some r) = []) ∧
    (updateRoomStatus now2
      (some (applyWrites r (updateRoomStatus now (some r) (some r))))
      (some (applyWrites r (updateRoomStatus now (some r) (some r)))) = []) := by
  constructor
  · intro h0 h1 h2 h3 h4
    exact updateRoomStatus_skip now r h0 h1 h2 h3 h4
  · by_cases hcl : r.status = RoomStatus.closed ∨ r.roomStatus = RoomStatus.closed
    · have hw : updateRoomStatus now (some r) (some r) = [] := by
        simp only [updateRoomStatus, getRoomStatusCounts]
        rw [if_pos hcl]
      rw [hw]
      show updateRoomStatus now2 (some r) (some r) = []
      simp only [updateRoomStatus, getRoomStatusCounts]
      rw [if_pos hcl]
    · obtain ⟨hm, hrs, hst, ha, haw, ho, ht⟩ := updateRoomStatus_post now r hcl
      exact updateRoomStatus_skip now2 _
        (by rw [hst, hm]) (by rw [ha, hm]) (by rw [haw, hm])
        (by rw [ho, hm]) (by rw [ht, hm])

/-- C7 witness: on a room whose stored status and stats already match
its single online member, the aggregator writes nothing, and the
re-run clause applied to the mixed-status fixture also yields no
second-run write. -/
theorem updateRoomStatus_noop_on_unchanged_witness :
    updateRoomStatus 21 (some steadyRoom) (some steadyRoom) = [] ∧
    updateRoomStatus 22
      (some (applyWrites mixedRoom (updateRoomStatus 21 (some mixedRoom) (some mixedRoom))))
      (some (applyWrites mixedRoom (updateRoomStatus 21 (some mixedRoom) (some mixedRoom)))) = [] := by
  constructor
  · exact (updateRoomStatus_noop_on_unchanged 21 22 steadyRoom).1
      (by decide) (by decide) (by decide) (by decide) (by decide)
  · exact (updateRoomStatus_noop_on_unchanged 21 22 mixedRoom).2

end PocRtdb
